import Mathlib

/-!
Verification of the GameDownloader core against its natural-language
specification.  The Python modules `steamcmd_manager.py`,
`download_manager.py` and `library_manager.py` are shallowly embedded:
pure command construction becomes list manipulation, the queue worker
becomes explicit state passing, file-system and subprocess effects
become explicit outcome parameters.
-/

namespace GameDownloader

/-! ## steamcmd_manager.py -/

/-- Python `list.insert(i, x)` semantics: a negative index counts from the
end (clamped at 0), a non-negative index is clamped at the length. -/
def pyInsert (l : List String) (i : Int) (x : String) : List String :=
  let n : Int := l.length
  let idx : Nat := if i < 0 then (max (n + i) 0).toNat else min i.toNat l.length
  l.take idx ++ x :: l.drop idx

/-- Keyword arguments accepted by `SteamCMD.download_game` (via `**kwargs`).
`username` and `password` are passed by `DownloadManager._process_queue`
but the body of `download_game` never reads them. -/
structure DownloadKwargs where
  validate : Bool := true
  platform : Option String := none
  username : Option String := none
  password : Option String := none
deriving DecidableEq

/-- The argument list built by `SteamCMD.download_game` (lines 330-346):
start from the fixed list, `insert(-1, "validate")` when the validate
kwarg is truthy, then `insert(1, "+@sSteamCmdForcePlatformType")` and
`insert(2, platform)` when the platform kwarg is truthy (the walrus test
skips an empty string). -/
def downloadGameCommands (app_id : Int) (install_dir : String)
    (kw : DownloadKwargs) : List String :=
  let commands := ["+force_install_dir", install_dir, "+login", "anonymous",
    "+app_update", toString app_id, "+quit"]
  let commands := if kw.validate then pyInsert commands (-1) "validate" else commands
  match kw.platform with
  | some p =>
      if p = "" then commands
      else pyInsert (pyInsert commands 1 "+@sSteamCmdForcePlatformType") 2 p
  | none => commands

/-- Outcome of one installation attempt at a given install path, abstracting
the body of `SteamCMD.install` (lines 79-172): the `is_installed` fast path
and a successful download/extract both return True, a `PermissionError`
enters the fallback handler, any other exception returns False. -/
inductive InstallOutcome
  | ok
  | permError
  | otherError
deriving DecidableEq

/-- The fallback install path chosen by the `PermissionError` handler of
`SteamCMD.install` (line 161): `os.path.join(os.getcwd(), "data",
"steamcmd")`, a constant for the life of the process. -/
def fallbackInstallPath : String := "data/steamcmd"

/-- Fuel-indexed semantics of `SteamCMD.install` (lines 79-172).  `env`
gives the outcome of attempting installation at a path.  On
`PermissionError` the handler reassigns the install path to the fixed
fallback and re-invokes `install()` (line 168); `none` means the
recursion did not return within the given fuel. -/
def installFuel (env : String → InstallOutcome) : Nat → String → Option Bool
  | 0, _ => none
  | fuel + 1, path =>
    match env path with
    | .ok => some true
    | .otherError => some false
    | .permError => installFuel env fuel fallbackInstallPath

/-! ## download_manager.py -/

/-- The `status` field of a queue item: `queued`, `downloading`,
`completed` or `failed`. -/
inductive Status
  | queued
  | downloading
  | completed
  | failed
deriving DecidableEq

/-- One queue item of `DownloadManager`: the dict built in `add_download`
(lines 51-57), with the `error` key optionally added by the exception
handler of `_process_queue` (line 166). -/
structure Job where
  id : String
  app_id : Int
  name : String
  status : Status
  progress : Nat
  error : Option String
deriving DecidableEq

/-- Python-dict association list: `dictGet` is `d.get(k)` /
`d[k]` lookup. -/
def dictGet {α : Type} : List (String × α) → String → Option α
  | [], _ => none
  | (k, v) :: rest, key => if k = key then some v else dictGet rest key

/-- Python `d[k] = v`: replace the binding in place when the key is
present, otherwise append it. -/
def dictSet {α : Type} : List (String × α) → String → α → List (String × α)
  | [], key, v => [(key, v)]
  | (k, w) :: rest, key, v =>
    if k = key then (key, v) :: rest else (k, w) :: dictSet rest key v

/-- Python `del d[k]`: drop the binding for the key. -/
def dictRemove {α : Type} : List (String × α) → String → List (String × α)
  | [], _ => []
  | (k, v) :: rest, key => if k = key then rest else (k, v) :: dictRemove rest key

/-- Python `k in d`. -/
def dictContains {α : Type} (l : List (String × α)) (key : String) : Bool :=
  (dictGet l key).isSome

/-- Mutable state of a `DownloadManager`: the FIFO `download_queue` and
the `active_downloads` dict. -/
structure DMState where
  queue : List Job
  active : List (String × Job)
deriving DecidableEq

/-- A freshly constructed `DownloadManager`: empty queue, empty
active-downloads table. -/
def dmInit : DMState := ⟨[], []⟩

/-- The id string built in `add_download` (line 50):
`f"{app_id}-{int(time.time())}"`. -/
def downloadId (app_id : Int) (now : Nat) : String :=
  toString app_id ++ "-" ++ toString now

/-- `DownloadManager.add_download` (lines 34-59).  `steamcmdReady`
abstracts `steamcmd.is_installed() or steamcmd.install()`: when false the
method raises `RuntimeError` before touching the queue; otherwise it
builds the id from the app id and the current whole second, appends a
queued item to the FIFO and returns the id. -/
def addDownload (st : DMState) (steamcmdReady : Bool) (app_id : Int)
    (game_name : String) (now : Nat) : Except String (String × DMState) :=
  if steamcmdReady then
    let id := downloadId app_id now
    .ok (id, { st with
      queue := st.queue ++ [⟨id, app_id, game_name, .queued, 0, none⟩] })
  else
    .error "Cannot add download: SteamCMD installation failed"

/-- The id component of the `add_download` result. -/
def addDownloadId (st : DMState) (steamcmdReady : Bool) (app_id : Int)
    (game_name : String) (now : Nat) : Option String :=
  match addDownload st steamcmdReady app_id game_name now with
  | .ok (id, _) => some id
  | .error _ => none

/-- `DownloadManager.get_download_status` (lines 174-179): a lookup in
`active_downloads`; items still waiting in the queue are not consulted. -/
def getDownloadStatus (st : DMState) (download_id : String) : Option Job :=
  dictGet st.active download_id

/-- Outcome of the per-item body of `_process_queue`: the
`steamcmd.download_game` call returned True, returned False, or some step
of the body raised an exception with the given message. -/
inductive Outcome
  | success
  | failure
  | exc (msg : String)

/-- The status updates applied to one dequeued item by `_process_queue`:
line 95 sets `downloading`; on True lines 141-142 set `completed` and
progress 100; on False line 157 sets `failed`; the exception handler
(lines 165-166) sets `failed` and records the message. -/
def runItem (j : Job) (o : Outcome) : Job :=
  let j := { j with status := Status.downloading }
  match o with
  | .success => { j with status := Status.completed, progress := 100 }
  | .failure => { j with status := Status.failed }
  | .exc m => { j with status := Status.failed, error := some m }

/-- The worker loop of `_process_queue` applied to a whole queue: each
item is dequeued in FIFO order and driven to its terminal state by
`runItem`; `env i` is the outcome of the i-th item.  Every branch of the
loop body ends by continuing with the next item. -/
def processAll (env : Nat → Outcome) : List Job → List Job
  | [] => []
  | j :: rest => runItem j (env 0) :: processAll (fun n => env (n + 1)) rest

/-- `isTerminal s` holds for the two terminal statuses. -/
def isTerminal : Status → Bool
  | .completed => true
  | .failed => true
  | _ => false

/-- The individual status transitions performed on a job record by
`_process_queue`: dequeue (line 95), successful completion (line 141),
and the two failure sites (lines 157 and 165). -/
inductive JobStep : Status → Status → Prop
  | dequeue : JobStep .queued .downloading
  | finish_ok : JobStep .downloading .completed
  | finish_err : JobStep .downloading .failed

/-- Rank of a status in the forward order
queued < downloading < completed/failed. -/
def statusRank : Status → Nat
  | .queued => 0
  | .downloading => 1
  | .completed => 2
  | .failed => 2

/-! ## library_manager.py -/

/-- A key passed to the catalog operations: the callers pass either a
Python int or its string form; every operation first applies `str`. -/
inductive AppKey
  | int (n : Int)
  | str (s : String)

/-- Python `str` on an app key. -/
def pyStr : AppKey → String
  | .int n => toString n
  | .str s => s

/-- One record of the game library, the dict stored by
`LibraryManager.add_game` (lines 54-60). -/
structure Entry where
  name : String
  location : String
  size : ℚ
  added_date : Nat
  last_played : Option Nat
deriving DecidableEq

/-- The in-memory `self.library` dict, keyed by the string form of the
app id. -/
abbrev Library := List (String × Entry)

/-- `LibraryManager._get_folder_size` (lines 98-113): when the folder is
absent (or walking it raises) the size is 0, otherwise the byte sizes of
the files are summed, divided by 1024*1024 and rounded to two decimals.
Python rounds a float with ties to even; the model uses round to nearest,
which agrees on every non-tie and is non-negative either way. -/
def getFolderSize (files : Option (List Nat)) : ℚ :=
  match files with
  | none => 0
  | some sizes => (round (((sizes.sum : ℚ) / (1024 * 1024)) * 100) : ℤ) / 100

/-- `LibraryManager.add_game` (lines 50-64), in-memory part: store the
fresh record under `str(app_id)`. -/
def addGame (lib : Library) (app_id : AppKey) (name location : String)
    (files : Option (List Nat)) (now : Nat) : Library :=
  dictSet lib (pyStr app_id) ⟨name, location, getFolderSize files, now, none⟩

/-- `LibraryManager.get_game` (lines 80-82): `self.library.get(str(app_id))`. -/
def getGame (lib : Library) (app_id : AppKey) : Option Entry :=
  dictGet lib (pyStr app_id)

/-- `LibraryManager.remove_game` (lines 66-78): delete under `str(app_id)`
and return True when present, otherwise return False unchanged. -/
def removeGame (lib : Library) (app_id : AppKey) : Library × Bool :=
  if dictContains lib (pyStr app_id) then
    (dictRemove lib (pyStr app_id), true)
  else
    (lib, false)

/-- `LibraryManager.update_last_played` (lines 88-96): set the
`last_played` field under `str(app_id)` when present. -/
def updateLastPlayed (lib : Library) (app_id : AppKey) (now : Nat) :
    Library × Bool :=
  match dictGet lib (pyStr app_id) with
  | some e => (dictSet lib (pyStr app_id) { e with last_played := some now }, true)
  | none => (lib, false)

/-- On-disk state of `game_library.json`: absent, or present with a
written sequence of records (a failed dump leaves a proper prefix of the
intended table). -/
abbrev DiskState := Option Library

/-- Outcome of the `open(..., "w")` / `json.dump` pair in
`_save_library`: the dump completes, the open itself raises (file
untouched), or the dump raises after writing `k` records into the
already-truncated file. -/
inductive WriteOutcome
  | success
  | openFail
  | failAfter (k : Nat)

/-- `LibraryManager._save_library` (lines 40-48): open the library file
in truncate mode and dump the whole table into it; any exception is
logged and swallowed, returning False. -/
def saveLibrary (lib : Library) (disk : DiskState) (w : WriteOutcome) :
    Bool × DiskState :=
  match w with
  | .success => (true, some lib)
  | .openFail => (false, disk)
  | .failAfter k => (false, some (lib.take k))

/-- `LibraryManager.add_game` (lines 50-64) with its `_save_library`
call: mutate the in-memory table, attempt the dump, and return True
regardless of whether the dump succeeded. -/
def addGameCall (lib : Library) (app_id : AppKey) (name location : String)
    (files : Option (List Nat)) (now : Nat) (disk : DiskState)
    (w : WriteOutcome) : Library × Bool × DiskState :=
  let lib2 := addGame lib app_id name location files now
  let s := saveLibrary lib2 disk w
  (lib2, true, s.2)

/-- The install directory computed by `_process_queue` (lines 110-116):
`os.path.join(download_path, "steamapps", "common", f"app_{app_id}")`. -/
def downloadPath (base : String) (app_id : Int) : String :=
  base ++ "/steamapps/common/app_" ++ toString app_id

/-- One full iteration of the `_process_queue` worker on a non-empty
queue: dequeue the head, publish it in `active_downloads`, drive it to
its terminal state, and on success add the game to the library
(lines 81-167). -/
def dequeueRun (st : DMState) (lib : Library) (o : Outcome)
    (files : Option (List Nat)) (base : String) (now : Nat) :
    DMState × Library :=
  match st.queue with
  | [] => (st, lib)
  | item :: rest =>
    let j := runItem item o
    let lib2 :=
      match o with
      | .success =>
          addGame lib (.int item.app_id) item.name
            (downloadPath base item.app_id) files now
      | _ => lib
    ({ queue := rest, active := dictSet st.active item.id j }, lib2)

/-- A concrete library record, used to instantiate the durability
scenario. -/
def exampleEntry : Entry := ⟨"Old Game", "old/location", 0, 1, none⟩

/-- A concrete queue item, used to instantiate the worker scenarios. -/
def exampleJob : Job := ⟨"730-100", 730, "Example App", Status.queued, 0, none⟩

/-- A per-item environment in which every download attempt raises an
exception with message `boom`. -/
def excEnv : Nat → Outcome := fun _ => Outcome.exc "boom"

/-! ## Helper lemmas -/

theorem dictGet_dictSet {α : Type} (l : List (String × α)) (k : String) (v : α) :
    dictGet (dictSet l k v) k = some v := by
  induction l with
  | nil => simp [dictSet, dictGet]
  | cons p rest ih =>
    by_cases h : p.1 = k
    · simp [dictSet, dictGet, h]
    · simpa [dictSet, dictGet, h] using ih

theorem isTerminal_runItem (j : Job) (o : Outcome) :
    isTerminal (runItem j o).status = true := by
  cases o <;> rfl

theorem processAll_length (env : Nat → Outcome) (q : List Job) :
    (processAll env q).length = q.length := by
  induction q generalizing env with
  | nil => rfl
  | cons j rest ih => simp [processAll, ih]

theorem processAll_getElem (env : Nat → Outcome) (q : List Job) (i : Nat) :
    (processAll env q)[i]? = (q[i]?).map (fun j => runItem j (env i)) := by
  induction q generalizing env i with
  | nil => simp [processAll]
  | cons j rest ih =>
    cases i with
    | zero => simp [processAll]
    | succ n => simpa [processAll] using ih (fun n => env (n + 1)) n

theorem getFolderSize_nonneg (files : Option (List Nat)) :
    0 ≤ getFolderSize files := by
  cases files with
  | none => simp [getFolderSize]
  | some sizes =>
    unfold getFolderSize
    apply div_nonneg _ (by norm_num)
    have hx : (0 : ℚ) ≤ ((sizes.sum : ℚ) / (1024 * 1024)) * 100 + 1 / 2 := by
      positivity
    rw [round_eq]
    exact_mod_cast Int.floor_nonneg.mpr hx

/-! ## Claims -/

/-- C1: the spec requires the platform-override pair to sit immediately
after the directory-set pair; the code instead inserts it at index 1,
between `+force_install_dir` and its directory argument, splitting the
pair.  At app_id 730, install_dir `/d`, platform `windows`,
validate true, the constructed list separates the directory flag from its
value and differs from the order the spec mandates (the validate token,
by contrast, does sit immediately before the final quit token). -/
theorem download_cmd_platform_splits_dir_pair :
    downloadGameCommands 730 "/d" ⟨true, some "windows", none, none⟩ =
      ["+force_install_dir", "+@sSteamCmdForcePlatformType", "windows", "/d",
        "+login", "anonymous", "+app_update", "730", "validate", "+quit"] ∧
    downloadGameCommands 730 "/d" ⟨true, some "windows", none, none⟩ ≠
      ["+force_install_dir", "/d", "+@sSteamCmdForcePlatformType", "windows",
        "+login", "anonymous", "+app_update", "730", "validate", "+quit"] := by
  constructor
  · rfl
  · decide

/-- C3: `download_game` never reads the `username`/`password` kwargs its
caller passes: with credentials alice/pw123 supplied the constructed
command still logs in anonymously and mentions neither credential. -/
theorem download_cmd_ignores_credentials :
    downloadGameCommands 730 "/d"
        ⟨true, some "windows", some "alice", some "pw123"⟩ =
      ["+force_install_dir", "+@sSteamCmdForcePlatformType", "windows", "/d",
        "+login", "anonymous", "+app_update", "730", "validate", "+quit"] ∧
    "anonymous" ∈ downloadGameCommands 730 "/d"
        ⟨true, some "windows", some "alice", some "pw123"⟩ ∧
    "alice" ∉ downloadGameCommands 730 "/d"
        ⟨true, some "windows", some "alice", some "pw123"⟩ ∧
    "pw123" ∉ downloadGameCommands 730 "/d"
        ⟨true, some "windows", some "alice", some "pw123"⟩ := by
  refine ⟨rfl, by decide, by decide, by decide⟩

/-- C5: when every installation attempt raises `PermissionError` (primary
and fallback path both unwritable), `install` re-enters itself from the
handler on every attempt and never returns within any finite number of
self-calls, instead of stopping after one fallback retry. -/
theorem install_unbounded_recursion_on_perm_error :
    ∀ (fuel : Nat) (path : String),
      installFuel (fun _ => InstallOutcome.permError) fuel path = none := by
  intro fuel
  induction fuel with
  | zero => intro path; rfl
  | succ n ih => intro path; simpa [installFuel] using ih fallbackInstallPath

/-- C2 counterexample: `add_download` accepts content_id 0 with an empty
display name — it enqueues the item and returns a job id instead of
failing with a validation error before enqueueing. -/
theorem addDownload_accepts_invalid_input :
    ∃ st, addDownload dmInit true 0 "" 100 = Except.ok ("0-100", st) ∧
      st.queue.length = 1 :=
  ⟨_, rfl, rfl⟩

/-- C2 amended: `add_download` performs no input validation.  Whenever
SteamCMD is available every `(app_id, game_name)` pair, including
non-positive ids and empty names, is appended to the queue as a Queued
job and its id is returned; the only failure is the `RuntimeError`
raised when SteamCMD is neither installed nor installable. -/
theorem addDownload_no_validation :
    ∀ (st : DMState) (a : Int) (name : String) (t : Nat),
      (∃ st2, addDownload st true a name t = Except.ok (downloadId a t, st2) ∧
        st2.queue = st.queue ++ [⟨downloadId a t, a, name, Status.queued, 0, none⟩]) ∧
      (∃ msg, addDownload st false a name t = Except.error msg) :=
  fun _ _ _ _ => ⟨⟨_, rfl, rfl⟩, ⟨_, rfl⟩⟩

/-- C4 counterexample: two back-to-back submissions of content_id 730
within the same whole second both return the id "730-100" — the ids are
not distinct. -/
theorem addDownload_duplicate_ids_same_second :
    ∃ st1 st2,
      addDownload dmInit true 730 "Example App" 100 =
        Except.ok ("730-100", st1) ∧
      addDownload st1 true 730 "Example App" 100 =
        Except.ok ("730-100", st2) :=
  ⟨_, _, rfl, rfl⟩

/-- C4 amended: the job id is a pure function of the content id and the
submission second — independent of the existing queue state and of the
display name — so ids are distinct only when those differ; in particular
two submissions of the same content_id within the same second receive
the same id. -/
theorem downloadId_pure_function_of_app_and_second :
    ∀ (st1 st2 : DMState) (name1 name2 : String) (a : Int) (t : Nat),
      addDownloadId st1 true a name1 t = some (downloadId a t) ∧
      addDownloadId st1 true a name1 t = addDownloadId st2 true a name2 t :=
  fun _ _ _ _ _ _ => ⟨rfl, rfl⟩

/-- C6 counterexample: with prior on-disk state holding one record, a
mutating `add_game` whose dump fails immediately after the truncating
open leaves the file empty — neither the prior state nor the full
post-mutation table. -/
theorem catalog_write_not_atomic :
    (addGameCall [] (AppKey.str "2") "New Game" "loc" none 5
        (some [("1", exampleEntry)]) (WriteOutcome.failAfter 0)).2.2 = some [] ∧
    (addGameCall [] (AppKey.str "2") "New Game" "loc" none 5
        (some [("1", exampleEntry)]) (WriteOutcome.failAfter 0)).2.2 ≠
      some [("1", exampleEntry)] ∧
    (addGameCall [] (AppKey.str "2") "New Game" "loc" none 5
        (some [("1", exampleEntry)]) (WriteOutcome.failAfter 0)).2.2 ≠
      some (addGameCall [] (AppKey.str "2") "New Game" "loc" none 5
        (some [("1", exampleEntry)]) (WriteOutcome.failAfter 0)).1 := by
  refine ⟨rfl, ?_, ?_⟩ <;> simp [addGameCall, addGame, saveLibrary, dictSet]

/-- C6 amended: the catalog write is in-place and non-atomic.  `add_game`
always reports success; the dump fully persists the post-mutation table
when it completes, leaves the prior on-disk state untouched only when the
open itself fails, and when the dump fails after k records the file holds
just those k records of the new table (the prior on-disk state is lost). -/
theorem addGame_write_behavior :
    ∀ (lib : Library) (k : AppKey) (name loc : String)
      (files : Option (List Nat)) (now : Nat) (disk : DiskState)
      (w : WriteOutcome),
      (addGameCall lib k name loc files now disk w).2.1 = true ∧
      (w = WriteOutcome.success →
        (addGameCall lib k name loc files now disk w).2.2 =
          some (addGameCall lib k name loc files now disk w).1) ∧
      (w = WriteOutcome.openFail →
        (addGameCall lib k name loc files now disk w).2.2 = disk) ∧
      (∀ kk, w = WriteOutcome.failAfter kk →
        (addGameCall lib k name loc files now disk w).2.2 =
          some ((addGameCall lib k name loc files now disk w).1.take kk)) := by
  intro lib k name loc files now disk w
  refine ⟨rfl, fun h => ?_, fun h => ?_, fun kk h => ?_⟩ <;> subst h <;> rfl

/-- C6 witness: the amended behavior at a concrete failed open — the
prior (empty) on-disk file is untouched. -/
theorem addGame_write_behavior_witness :
    (addGameCall [] (AppKey.str "2") "New Game" "loc" none 5 (some [])
        WriteOutcome.openFail).2.2 = some [] :=
  (addGame_write_behavior [] (AppKey.str "2") "New Game" "loc" none 5
    (some []) WriteOutcome.openFail).2.2.1 rfl

/-- C7 counterexample: immediately after submission the job is only in
the FIFO, not in `active_downloads`, so `get_download_status` returns
not-found rather than a Queued record. -/
theorem status_not_found_immediately_after_submit :
    ∃ st1, addDownload dmInit true 730 "Example App" 100 =
        Except.ok ("730-100", st1) ∧
      getDownloadStatus st1 "730-100" = none :=
  ⟨_, rfl, rfl⟩

/-- C7 amended: `get_download_status` returns not-found until the worker
dequeues the job; once the worker has processed it successfully the
status is Completed with progress 100, and the catalog holds a record
under the string form of the content id with the submitted name and a
non-negative size. -/
theorem submit_process_success_completed :
    ∀ (a : Int) (name : String) (t : Nat) (base : String)
      (files : Option (List Nat)) (t2 : Nat),
      ∃ id st1,
        addDownload dmInit true a name t = Except.ok (id, st1) ∧
        getDownloadStatus st1 id = none ∧
        (∃ j, getDownloadStatus
            (dequeueRun st1 [] Outcome.success files base t2).1 id = some j ∧
          j.status = Status.completed ∧ j.progress = 100) ∧
        (∃ e, getGame (dequeueRun st1 [] Outcome.success files base t2).2
            (AppKey.str (toString a)) = some e ∧
          e.name = name ∧ 0 ≤ e.size) := by
  intro a name t base files t2
  refine ⟨downloadId a t, _, rfl, rfl, ?_, ?_⟩
  · refine ⟨runItem ⟨downloadId a t, a, name, Status.queued, 0, none⟩
      Outcome.success, ?_, rfl, rfl⟩
    show dictGet (dictSet [] (downloadId a t) _) (downloadId a t) = _
    exact dictGet_dictSet _ _ _
  · refine ⟨⟨name, downloadPath base a, getFolderSize files, t2, none⟩, ?_,
      rfl, getFolderSize_nonneg files⟩
    show dictGet (dictSet [] (toString a) _) (toString a) = _
    exact dictGet_dictSet _ _ _

/-- C8: every status transition the worker performs on a job record moves
strictly forward in the order Queued, Downloading, Completed/Failed — no
transition re-enters Queued and none leaves a terminal state — and the
full per-item processing of a queued job is a chain of exactly these
transitions. -/
theorem job_status_monotonic :
    (∀ s t, JobStep s t →
      statusRank s < statusRank t ∧ t ≠ Status.queued ∧
      s ≠ Status.completed ∧ s ≠ Status.failed) ∧
    (∀ (j : Job) (o : Outcome), j.status = Status.queued →
      Relation.ReflTransGen JobStep j.status (runItem j o).status) := by
  constructor
  · intro s t h
    cases h <;> simp [statusRank]
  · intro j o h
    have h1 : JobStep j.status Status.downloading := by
      rw [h]; exact JobStep.dequeue
    cases o with
    | success =>
        exact Relation.ReflTransGen.tail
          (Relation.ReflTransGen.single h1) JobStep.finish_ok
    | failure =>
        exact Relation.ReflTransGen.tail
          (Relation.ReflTransGen.single h1) JobStep.finish_err
    | exc m =>
        exact Relation.ReflTransGen.tail
          (Relation.ReflTransGen.single h1) JobStep.finish_err

/-- C8 witness: the dequeue transition at a concrete queued job. -/
theorem job_status_monotonic_witness :
    (statusRank Status.queued < statusRank Status.downloading ∧
      Status.downloading ≠ Status.queued ∧
      Status.queued ≠ Status.completed ∧ Status.queued ≠ Status.failed) ∧
    Relation.ReflTransGen JobStep exampleJob.status
      (runItem exampleJob Outcome.success).status :=
  ⟨job_status_monotonic.1 Status.queued Status.downloading JobStep.dequeue,
    job_status_monotonic.2 exampleJob Outcome.success rfl⟩

/-- C9: the worker drains the whole queue no matter what each item does —
every queued job is processed to a terminal status (one result per queued
item, in order), and an item whose body raises is recorded as Failed with
its error message; no failure stops the processing of later items. -/
theorem worker_drains_queue :
    ∀ (env : Nat → Outcome) (q : List Job),
      (processAll env q).length = q.length ∧
      (∀ j, j ∈ processAll env q → isTerminal j.status = true) ∧
      (∀ i j m, (processAll env q)[i]? = some j → env i = Outcome.exc m →
        j.status = Status.failed ∧ j.error = some m) := by
  intro env q
  refine ⟨processAll_length env q, ?_, ?_⟩
  · intro j hj
    rcases List.mem_iff_getElem?.mp hj with ⟨i, hi⟩
    rw [processAll_getElem] at hi
    rcases Option.map_eq_some'.mp hi with ⟨j0, _, hj0⟩
    rw [← hj0]
    exact isTerminal_runItem j0 (env i)
  · intro i j m hi he
    rw [processAll_getElem] at hi
    rcases Option.map_eq_some'.mp hi with ⟨j0, _, hj0⟩
    rw [← hj0, he]
    exact ⟨rfl, rfl⟩

/-- C9 witness: a three-job queue whose every item raises still yields a
terminal result for each, with the message recorded on the first. -/
theorem worker_drains_queue_witness :
    (processAll excEnv [exampleJob, exampleJob, exampleJob]).length = 3 ∧
    (runItem exampleJob (Outcome.exc "boom")).status = Status.failed ∧
    (runItem exampleJob (Outcome.exc "boom")).error = some "boom" :=
  ⟨(worker_drains_queue excEnv [exampleJob, exampleJob, exampleJob]).1,
    (worker_drains_queue excEnv [exampleJob]).2.2 0
      (runItem exampleJob (Outcome.exc "boom")) "boom" rfl rfl⟩

/-- C10: every catalog operation first applies the Python `str`
conversion to its key, so calling it with an integer id behaves exactly
as calling it with the decimal string of that integer, and an entry
stored under an integer id is found under its string form. -/
theorem catalog_key_normalization :
    ∀ (lib : Library) (n : Int) (name loc : String)
      (files : Option (List Nat)) (now : Nat),
      addGame lib (AppKey.int n) name loc files now =
        addGame lib (AppKey.str (toString n)) name loc files now ∧
      getGame lib (AppKey.int n) = getGame lib (AppKey.str (toString n)) ∧
      removeGame lib (AppKey.int n) = removeGame lib (AppKey.str (toString n)) ∧
      updateLastPlayed lib (AppKey.int n) now =
        updateLastPlayed lib (AppKey.str (toString n)) now ∧
      getGame (addGame lib (AppKey.int n) name loc files now)
          (AppKey.str (toString n)) =
        some ⟨name, loc, getFolderSize files, now, none⟩ := by
  intro lib n name loc files now
  exact ⟨rfl, rfl, rfl, rfl, dictGet_dictSet lib (toString n) _⟩

end GameDownloader
